import Mathlib

/-!
Verification of the contact-book core of `hw1.py`: field validation
(`Phone`, `Birthday`), `Record`, `AddressBook`, the upcoming-birthday
query, and the command operations wrapped by the `input_error` decorator.

Dates are modelled as year/month/day triples with the proleptic Gregorian
calendar rules used by Python's `datetime.date` (years 1..9999).  Python
exceptions are modelled explicitly (`PyErr`); an exception that no handler
catches is a fatal outcome (`CmdOutcome.fatal`).
-/

set_option autoImplicit false

namespace HW1

/-! ## Calendar arithmetic (model of `datetime.date`) -/

def isLeap (y : Nat) : Bool :=
  y % 4 == 0 && (y % 100 != 0 || y % 400 == 0)

def daysInMonth (y m : Nat) : Nat :=
  if m = 2 then (if isLeap y then 29 else 28)
  else if m = 4 ∨ m = 6 ∨ m = 9 ∨ m = 11 then 30
  else 31

structure Date where
  year : Nat
  month : Nat
  day : Nat
deriving DecidableEq, Repr

/-- Validity of a date under `datetime.date`: year in 1..9999, month in
1..12, day in 1..days-of-that-month. -/
def validDate (d : Date) : Bool :=
  1 ≤ d.year && d.year ≤ 9999 && 1 ≤ d.month && d.month ≤ 12 &&
    1 ≤ d.day && d.day ≤ daysInMonth d.year d.month

/-- Days contributed by the months strictly before `m` in year `y`. -/
def daysBeforeMonth (y : Nat) : Nat → Nat
  | 0 => 0
  | 1 => 0
  | m + 1 => daysBeforeMonth y m + daysInMonth y m

/-- Number of leap years among 1..y-1. -/
def leapsBefore (y : Nat) : Nat :=
  (y - 1) / 4 - (y - 1) / 100 + (y - 1) / 400

/-- Proleptic-Gregorian ordinal of a date (Jan 1 of year 1 is day 1),
matching `datetime.date.toordinal`. -/
def Date.toOrdinal (d : Date) : Nat :=
  365 * (d.year - 1) + leapsBefore d.year + daysBeforeMonth d.year d.month + d.day

/-- `(b - a).days` of Python date subtraction. -/
def daysBetween (a b : Date) : Int :=
  (b.toOrdinal : Int) - (a.toOrdinal : Int)

/-- Python date comparison: lexicographic on (year, month, day). -/
def dateLt (a b : Date) : Bool :=
  a.year < b.year ||
    (a.year == b.year &&
      (a.month < b.month || (a.month == b.month && a.day < b.day)))

/-- `date.replace(year=y)`: keeps month and day, revalidates; raises
`ValueError` when the result is not a valid date (e.g. Feb 29 moved onto
a non-leap year). -/
def Date.replaceYear (d : Date) (y : Nat) : Except String Date :=
  if y < 1 ∨ 9999 < y then .error "year is out of range"
  else if validDate ⟨y, d.month, d.day⟩ then .ok ⟨y, d.month, d.day⟩
  else .error "day is out of range for month"

/-- Decimal rendering zero-padded to width 2 (`%m`, `%d`). -/
def pad2 (n : Nat) : String :=
  if n < 10 then "0" ++ toString n else toString n

/-- Decimal rendering zero-padded to width 4 (`%Y`). -/
def pad4 (n : Nat) : String :=
  if n < 10 then "000" ++ toString n
  else if n < 100 then "00" ++ toString n
  else if n < 1000 then "0" ++ toString n
  else toString n

/-- `strftime("%Y.%m.%d")`. -/
def strftimeYMD (d : Date) : String :=
  pad4 d.year ++ "." ++ pad2 d.month ++ "." ++ pad2 d.day

/-! ## Field validators -/

/-- The `Phone` field: a validated raw digit string. -/
structure Phone where
  value : String
deriving DecidableEq, Repr

/-- The `Phone` value setter: accepts exactly the strings of length 10
whose characters all satisfy `str.isdigit` (modelled on the decimal
digits 0-9); otherwise raises `ValueError("Invalid phone format")`. -/
def Phone.create (s : String) : Except String Phone :=
  if s.data.length == 10 && s.data.all Char.isDigit then .ok ⟨s⟩
  else .error "Invalid phone format"

/-- `str(phone)`: `Field.__str__` returns the stored raw string. -/
def Phone.render (p : Phone) : String := p.value

/-- The `Birthday` field: the original raw text plus the parsed date. -/
structure Birthday where
  value : String
  date : Date
deriving DecidableEq, Repr

def digitVal (c : Char) : Nat := c.toNat - 48

/-- `strptime` field `%d`: one or two digits (or a space then 1-9) whose
value is 1..31. -/
def matchDay (cs : List Char) : Option Nat :=
  match cs with
  | [c] =>
      if c.isDigit && c != '0' then some (digitVal c) else none
  | [c1, c2] =>
      if c1 == ' ' then
        (if c2.isDigit && c2 != '0' then some (digitVal c2) else none)
      else if c1.isDigit && c2.isDigit then
        (let v := 10 * digitVal c1 + digitVal c2
         if 1 ≤ v ∧ v ≤ 31 then some v else none)
      else none
  | _ => none

/-- `strptime` field `%m`: one or two digits whose value is 1..12. -/
def matchMonth (cs : List Char) : Option Nat :=
  match cs with
  | [c] =>
      if c.isDigit && c != '0' then some (digitVal c) else none
  | [c1, c2] =>
      if c1.isDigit && c2.isDigit then
        (let v := 10 * digitVal c1 + digitVal c2
         if 1 ≤ v ∧ v ≤ 12 then some v else none)
      else none
  | _ => none

/-- `strptime` field `%Y`: exactly four digits. -/
def matchYear (cs : List Char) : Option Nat :=
  match cs with
  | [c1, c2, c3, c4] =>
      if c1.isDigit && c2.isDigit && c3.isDigit && c4.isDigit then
        some (1000 * digitVal c1 + 100 * digitVal c2 + 10 * digitVal c3 + digitVal c4)
      else none
  | _ => none

/-- Split a character list on the literal `.` separator (the behaviour of
`"...".split` on the fixed pattern's separator). -/
def splitDots : List Char → List (List Char)
  | [] => [[]]
  | c :: cs =>
      if c = '.' then [] :: splitDots cs
      else
        match splitDots cs with
        | [] => [[c]]
        | g :: gs => (c :: g) :: gs

/-- `strptime(value, "%d.%m.%Y")` followed by the `datetime` calendar
validation: three dot-separated fields matching `%d`, `%m`, `%Y`, forming
a valid date. -/
def parseDMY (s : String) : Option Date :=
  match splitDots s.data with
  | [ds, ms, ys] =>
      match matchDay ds, matchMonth ms, matchYear ys with
      | some d, some m, some y =>
          if validDate ⟨y, m, d⟩ then some ⟨y, m, d⟩ else none
      | _, _, _ => none
  | _ => none

/-- `Birthday.__init__`: parses the raw text (any `ValueError` from the
parse is re-raised as `"Invalid date format. Use DD.MM.YYYY"`).  On
success both the raw text and the parsed date are stored. -/
def Birthday.create (s : String) : Except String Birthday :=
  match parseDMY s with
  | some dt => .ok ⟨s, dt⟩
  | none => .error "Invalid date format. Use DD.MM.YYYY"

/-- `str(record.birthday)`: the raw text, or `"None"` when unset. -/
def birthdayStr : Option Birthday → String
  | none => "None"
  | some b => b.value

/-! ## Record -/

/-- One contact: a name, an ordered phone list, an optional birthday. -/
structure Record where
  name : String
  phones : List Phone
  birthday : Option Birthday
deriving DecidableEq, Repr

/-- `Record.__init__(name)`. -/
def Record.create (name : String) : Record := ⟨name, [], none⟩

/-- `Record.add_phone`: validates and appends. -/
def Record.add_phone (r : Record) (s : String) : Except String Record :=
  (Phone.create s).map fun p => { r with phones := r.phones ++ [p] }

/-- The loop body of `Record.edit_phone` over the phone list: replace the
first phone rendering equal to `old` by a revalidated `new`; raise
`ValueError("Phone number not found")` when none matches, and the
setter's `ValueError("Invalid phone format")` (leaving the phone
unchanged) when `new` is invalid. -/
def editPhones (old new : String) : List Phone → Except String (List Phone)
  | [] => .error "Phone number not found"
  | p :: ps =>
      if p.render == old then (Phone.create new).map (· :: ps)
      else (editPhones old new ps).map (p :: ·)

/-- `Record.edit_phone`. -/
def Record.edit_phone (r : Record) (old new : String) : Except String Record :=
  (editPhones old new r.phones).map fun ps => { r with phones := ps }

/-- `Record.add_birthday`: constructs a `Birthday` (may raise) and stores
it, replacing any prior value. -/
def Record.add_birthday (r : Record) (s : String) : Except String Record :=
  (Birthday.create s).map fun b => { r with birthday := some b }

/-! ## AddressBook

Python's `dict` with string keys, modelled as an association list with
insertion-order iteration: assignment to a present key updates the value
in place, otherwise the pair is appended. -/

/-- `d[k] = v` on an insertion-ordered dict. -/
def setKey : List (String × Record) → String → Record → List (String × Record)
  | [], k, v => [(k, v)]
  | (k', v') :: rest, k, v =>
      if k' = k then (k, v) :: rest else (k', v') :: setKey rest k v

/-- `d.get(k)`. -/
def lookupKey : List (String × Record) → String → Option Record
  | [], _ => none
  | (k', v') :: rest, k => if k' = k then some v' else lookupKey rest k

/-- `del d[k]` (for the unique occurrence of a dict key). -/
def eraseKey : List (String × Record) → String → List (String × Record)
  | [], _ => []
  | (k', v') :: rest, k => if k' = k then rest else (k', v') :: eraseKey rest k

/-- In-place mutation of the record stored under key `k`, as performed by
Python code that mutates the object returned by `find`. -/
def modifyKey : List (String × Record) → String → (Record → Record) → List (String × Record)
  | [], _, _ => []
  | (k', v') :: rest, k, f =>
      if k' = k then (k', f v') :: rest else (k', v') :: modifyKey rest k f

structure AddressBook where
  data : List (String × Record)
deriving DecidableEq, Repr

/-- `AddressBook.add_record`: `self.data[record.name.value] = record`. -/
def AddressBook.add_record (bk : AddressBook) (r : Record) : AddressBook :=
  ⟨setKey bk.data r.name r⟩

/-- `AddressBook.find`: `self.data.get(name)`. -/
def AddressBook.find (bk : AddressBook) (name : String) : Option Record :=
  lookupKey bk.data name

/-- `AddressBook.delete`. -/
def AddressBook.delete (bk : AddressBook) (name : String) : AddressBook :=
  ⟨eraseKey bk.data name⟩

def AddressBook.mutateAt (bk : AddressBook) (name : String) (f : Record → Record) : AddressBook :=
  ⟨modifyKey bk.data name f⟩

/-- The book's records in iteration (insertion) order. -/
def AddressBook.records (bk : AddressBook) : List Record :=
  bk.data.map Prod.snd

/-- The dict invariant stated in the spec: every key equals its record's
name; keys are unique (a dict property). -/
def AddressBook.inv (bk : AddressBook) : Prop :=
  (∀ kv ∈ bk.data, kv.1 = kv.2.name) ∧ (bk.data.map Prod.fst).Nodup

instance (bk : AddressBook) : Decidable bk.inv := by
  unfold AddressBook.inv; infer_instance

/-! ## The upcoming-birthday query -/

structure UBEntry where
  name : String
  congratulation_date : String
deriving DecidableEq, Repr

/-- The loop of `AddressBook.get_upcoming_birthdays` over the records in
iteration order.  A `ValueError` raised by `date.replace` aborts the
whole call (modelled as `.error`). -/
def gubRecords (today : Date) (days : Int) : List Record → Except String (List UBEntry)
  | [] => .ok []
  | user :: rest =>
      match user.birthday with
      | none => gubRecords today days rest
      | some b =>
          match b.date.replaceYear today.year with
          | .error e => .error e
          | .ok bty =>
              match (if dateLt bty today then b.date.replaceYear (today.year + 1) else .ok bty) with
              | .error e => .error e
              | .ok bty2 =>
                  match gubRecords today days rest with
                  | .error e => .error e
                  | .ok tail =>
                      if 0 ≤ daysBetween today bty2 ∧ daysBetween today bty2 ≤ days then
                        .ok (⟨user.name, strftimeYMD bty2⟩ :: tail)
                      else .ok tail

/-- `AddressBook.get_upcoming_birthdays(days)` run at current date
`today`. -/
def AddressBook.get_upcoming_birthdays (bk : AddressBook) (today : Date) (days : Int) :
    Except String (List UBEntry) :=
  gubRecords today days bk.records

/-- The upcoming-birthday computation as the spec words it: for each
record with a set birthday, re-anchor the birthday's month/day onto the
current year, advance to next year when strictly before today, include
iff the day distance is in `[0, w]`, format as `YYYY.MM.DD`, keep
insertion order.  (The spec's words never mention failure.) -/
def upcomingSpecGo (today : Date) (w : Int) : List Record → List UBEntry
  | [] => []
  | user :: rest =>
      match user.birthday with
      | none => upcomingSpecGo today w rest
      | some b =>
          let occ : Date := ⟨today.year, b.date.month, b.date.day⟩
          let occ2 : Date :=
            if dateLt occ today then ⟨today.year + 1, b.date.month, b.date.day⟩ else occ
          if 0 ≤ daysBetween today occ2 ∧ daysBetween today occ2 ≤ w then
            ⟨user.name, strftimeYMD occ2⟩ :: upcomingSpecGo today w rest
          else upcomingSpecGo today w rest

def upcomingSpec (bk : AddressBook) (today : Date) (w : Int) : List UBEntry :=
  upcomingSpecGo today w bk.records

/-! ## Command operations and the `input_error` decorator -/

/-- Python exceptions raised by the command operations. -/
inductive PyErr where
  | keyError
  | valueError (msg : String)
  | indexError
  | attributeError (msg : String)
deriving DecidableEq, Repr

/-- Observable outcome of one wrapped command operation: a message shown
via `ui.display_message`, an error message returned by `input_error`
(`main` drops it), or an uncaught exception that kills the process. -/
inductive CmdOutcome where
  | displayed (msg : String)
  | returned (msg : String)
  | fatal (msg : String)
deriving DecidableEq, Repr

/-- The `input_error` decorator: `KeyError`, `ValueError` and
`IndexError` are converted into returned messages; any other exception
(e.g. `AttributeError`) propagates and is fatal. -/
def input_error : Except PyErr String × AddressBook → CmdOutcome × AddressBook
  | (.ok m, bk) => (.displayed m, bk)
  | (.error .keyError, bk) => (.returned "Name not found. Please, check and try again.", bk)
  | (.error (.valueError m), bk) => (.returned m, bk)
  | (.error .indexError, bk) => (.returned "Enter correct information.", bk)
  | (.error (.attributeError m), bk) => (.fatal m, bk)

/-- Message of the `ValueError` raised by `a, b, *_ = args` with too few
elements. -/
def unpackAtLeastMsg (k n : Nat) : String :=
  "not enough values to unpack (expected at least " ++ toString k ++
    ", got " ++ toString n ++ ")"

/-- Body of `add_contact` before the decorator. -/
def add_contact_raw (args : List String) (bk : AddressBook) : Except PyErr String × AddressBook :=
  match args with
  | name :: phone :: _ =>
      match bk.find name with
      | some r =>
          if phone = "" then (.ok "Contact updated.", bk)
          else
            match Phone.create phone with
            | .ok p => (.ok "Contact updated.",
                bk.mutateAt name fun _ => { r with phones := r.phones ++ [p] })
            | .error m => (.error (.valueError m), bk)
      | none =>
          if phone = "" then (.ok "Contact added.", bk.add_record (Record.create name))
          else
            match Phone.create phone with
            | .ok p => (.ok "Contact added.",
                bk.add_record { Record.create name with phones := [p] })
            | .error m => (.error (.valueError m), bk.add_record (Record.create name))
  | _ => (.error (.valueError (unpackAtLeastMsg 2 args.length)), bk)

def add_contact (args : List String) (bk : AddressBook) : CmdOutcome × AddressBook :=
  input_error (add_contact_raw args bk)

/-- Body of `change_contact` before the decorator. -/
def change_contact_raw (args : List String) (bk : AddressBook) : Except PyErr String × AddressBook :=
  match args with
  | name :: old :: nw :: _ =>
      match bk.find name with
      | some r =>
          match r.edit_phone old nw with
          | .ok r2 => (.ok "Contact updated.", bk.mutateAt name fun _ => r2)
          | .error m => (.error (.valueError m), bk)
      | none => (.error .keyError, bk)
  | _ => (.error (.valueError (unpackAtLeastMsg 3 args.length)), bk)

def change_contact (args : List String) (bk : AddressBook) : CmdOutcome × AddressBook :=
  input_error (change_contact_raw args bk)

/-- Body of `show_phone` before the decorator.  `(name,) = args` raises
`ValueError` unless `args` has exactly one element. -/
def show_phone_raw (args : List String) (bk : AddressBook) : Except PyErr String × AddressBook :=
  match args with
  | [name] =>
      match bk.find name with
      | some r => (.ok (String.intercalate "; " (r.phones.map Phone.render)), bk)
      | none => (.error .keyError, bk)
  | [] => (.error (.valueError "not enough values to unpack (expected 1, got 0)"), bk)
  | _ => (.error (.valueError "too many values to unpack (expected 1)"), bk)

def show_phone (args : List String) (bk : AddressBook) : CmdOutcome × AddressBook :=
  input_error (show_phone_raw args bk)

/-- Body of the `add_birthday` command before the decorator.  `args[0]`
and `args[1]` raise `IndexError` when absent. -/
def add_birthday_raw (args : List String) (bk : AddressBook) : Except PyErr String × AddressBook :=
  match args with
  | name :: bday :: _ =>
      match bk.find name with
      | some r =>
          match r.add_birthday bday with
          | .ok r2 => (.ok "Birthday added.", bk.mutateAt name fun _ => r2)
          | .error m => (.error (.valueError m), bk)
      | none => (.error .keyError, bk)
  | _ => (.error .indexError, bk)

def add_birthday (args : List String) (bk : AddressBook) : CmdOutcome × AddressBook :=
  input_error (add_birthday_raw args bk)

/-- Body of `show_birthday` before the decorator: no `None` check, so a
missing contact raises `AttributeError` on `record.birthday`, which
`input_error` does not catch. -/
def show_birthday_raw (args : List String) (bk : AddressBook) : Except PyErr String × AddressBook :=
  match args with
  | [name] =>
      match bk.find name with
      | some r => (.ok (birthdayStr r.birthday), bk)
      | none => (.error (.attributeError "NoneType object has no attribute birthday"), bk)
  | [] => (.error (.valueError "not enough values to unpack (expected 1, got 0)"), bk)
  | _ => (.error (.valueError "too many values to unpack (expected 1)"), bk)

def show_birthday (args : List String) (bk : AddressBook) : CmdOutcome × AddressBook :=
  input_error (show_birthday_raw args bk)

/-! ## Helper lemmas: calendar -/

theorem daysInMonth_stable (y y' m d : Nat) (hm : ¬(m = 2 ∧ d = 29))
    (hd : d ≤ daysInMonth y m) : d ≤ daysInMonth y' m := by
  by_cases h2 : m = 2
  · subst h2
    have hd29 : d ≠ 29 := fun h => hm ⟨rfl, h⟩
    have hub : daysInMonth y 2 ≤ 29 := by
      cases hL : isLeap y <;> simp [daysInMonth, hL]
    have hlb : 28 ≤ daysInMonth y' 2 := by
      cases hL : isLeap y' <;> simp [daysInMonth, hL]
    omega
  · have heq : daysInMonth y' m = daysInMonth y m := by
      simp [daysInMonth, h2]
    omega

theorem replaceYear_ok (d : Date) (y : Nat) (hv : validDate d = true)
    (hm : ¬(d.month = 2 ∧ d.day = 29)) (h1 : 1 ≤ y) (h2 : y ≤ 9999) :
    d.replaceYear y = .ok ⟨y, d.month, d.day⟩ := by
  simp only [validDate, Bool.and_eq_true, decide_eq_true_eq] at hv
  obtain ⟨⟨⟨⟨⟨_, _⟩, hm1⟩, hm2⟩, hd1⟩, hd2⟩ := hv
  have hv' : validDate ⟨y, d.month, d.day⟩ = true := by
    simp only [validDate, Bool.and_eq_true, decide_eq_true_eq]
    exact ⟨⟨⟨⟨⟨h1, h2⟩, hm1⟩, hm2⟩, hd1⟩, daysInMonth_stable d.year y d.month d.day hm hd2⟩
  simp [Date.replaceYear, hv']
  omega

theorem gubRecords_eq_spec (today : Date) (w : Int) (hy1 : 1 ≤ today.year)
    (hy2 : today.year ≤ 9998) (l : List Record)
    (h : ∀ r ∈ l, ∀ b, r.birthday = some b →
        validDate b.date = true ∧ ¬(b.date.month = 2 ∧ b.date.day = 29)) :
    gubRecords today w l = .ok (upcomingSpecGo today w l) := by
  induction l with
  | nil => rfl
  | cons user rest ih =>
      have hrest := fun r hr => h r (List.mem_cons_of_mem _ hr)
      have ihr := ih hrest
      cases hb : user.birthday with
      | none => simp [gubRecords, upcomingSpecGo, hb, ihr]
      | some b =>
          obtain ⟨hv, hm⟩ := h user (List.mem_cons_self _ _) b hb
          have h1 : b.date.replaceYear today.year =
              .ok ⟨today.year, b.date.month, b.date.day⟩ :=
            replaceYear_ok _ _ hv hm hy1 (by omega)
          have h2 : b.date.replaceYear (today.year + 1) =
              .ok ⟨today.year + 1, b.date.month, b.date.day⟩ :=
            replaceYear_ok _ _ hv hm (by omega) (by omega)
          by_cases hlt : dateLt ⟨today.year, b.date.month, b.date.day⟩ today = true
          · simp only [gubRecords, upcomingSpecGo, hb, h1, h2, ihr, hlt, if_true]
            split <;> rfl
          · simp only [gubRecords, upcomingSpecGo, hb, h1, h2, ihr, hlt, if_false,
              Bool.false_eq_true]
            split <;> rfl

/-! ## Helper lemmas: the dict model -/

theorem lookupKey_setKey_self (l : List (String × Record)) (k : String) (v : Record) :
    lookupKey (setKey l k v) k = some v := by
  induction l with
  | nil => simp [setKey, lookupKey]
  | cons kv rest ih =>
      obtain ⟨k', v'⟩ := kv
      by_cases h : k' = k
      · simp [setKey, h, lookupKey]
      · simp [setKey, h, lookupKey, ih]

theorem keys_setKey (l : List (String × Record)) (k : String) (v : Record) :
    (setKey l k v).map Prod.fst =
      if k ∈ l.map Prod.fst then l.map Prod.fst else l.map Prod.fst ++ [k] := by
  induction l with
  | nil => simp [setKey]
  | cons kv rest ih =>
      obtain ⟨k', v'⟩ := kv
      by_cases h : k' = k
      · simp [setKey, h]
      · by_cases hmem : k ∈ rest.map Prod.fst
        · simp [setKey, h, ih, hmem, Ne.symm h]
        · simp [setKey, h, ih, hmem, Ne.symm h]

theorem nodup_keys_setKey (l : List (String × Record)) (k : String) (v : Record)
    (hn : (l.map Prod.fst).Nodup) : ((setKey l k v).map Prod.fst).Nodup := by
  rw [keys_setKey]
  split
  · exact hn
  · next hmem =>
      simp only [List.nodup_append, List.nodup_singleton, true_and]
      exact ⟨hn, by simpa [List.disjoint_singleton] using hmem⟩

theorem count_keys_setKey (l : List (String × Record)) (k : String) (v : Record)
    (hn : (l.map Prod.fst).Nodup) : ((setKey l k v).map Prod.fst).count k = 1 := by
  rw [keys_setKey]
  split
  · next hmem => exact List.count_eq_one_of_mem hn hmem
  · next hmem =>
      rw [List.count_append, List.count_eq_zero_of_not_mem hmem]
      simp

theorem names_setKey (l : List (String × Record)) (k : String) (v : Record)
    (h : ∀ kv ∈ l, kv.1 = kv.2.name) (hv : k = v.name) :
    ∀ kv ∈ setKey l k v, kv.1 = kv.2.name := by
  induction l with
  | nil => simpa [setKey] using hv
  | cons kv' rest ih =>
      obtain ⟨k', v'⟩ := kv'
      have hhead := h (k', v') (List.mem_cons_self _ _)
      have htail := fun kv hkv => h kv (List.mem_cons_of_mem _ hkv)
      by_cases hk : k' = k
      · intro kv hkv
        simp only [setKey, hk, if_pos rfl] at hkv
        rcases List.mem_cons.1 hkv with h1 | h1
        · simp [h1, hv]
        · exact htail kv h1
      · intro kv hkv
        simp only [setKey, if_neg hk] at hkv
        rcases List.mem_cons.1 hkv with h1 | h1
        · simp [h1] at hhead ⊢; exact hhead
        · exact ih htail kv h1

theorem eraseKey_sublist (l : List (String × Record)) (k : String) :
    List.Sublist (eraseKey l k) l := by
  induction l with
  | nil => simp [eraseKey]
  | cons kv rest ih =>
      obtain ⟨k', v'⟩ := kv
      by_cases h : k' = k
      · simp [eraseKey, h]
      · simpa [eraseKey, h] using ih.cons₂ (k', v')

theorem inv_add_record (bk : AddressBook) (r : Record) (h : bk.inv) :
    (bk.add_record r).inv :=
  ⟨names_setKey bk.data r.name r h.1 rfl, nodup_keys_setKey bk.data r.name r h.2⟩

theorem inv_delete (bk : AddressBook) (n : String) (h : bk.inv) :
    (bk.delete n).inv := by
  refine ⟨fun kv hkv => h.1 kv ((eraseKey_sublist bk.data n).subset hkv), ?_⟩
  exact h.2.sublist ((eraseKey_sublist bk.data n).map Prod.fst)

/-! ## Helper lemmas: phone editing -/

theorem phone_create_ok (s : String) (p : Phone) (h : Phone.create s = .ok p) :
    p = ⟨s⟩ := by
  unfold Phone.create at h
  split at h
  · cases h; rfl
  · cases h

theorem phone_create_error (s : String) (h : (Phone.create s).isOk = false) :
    Phone.create s = .error "Invalid phone format" := by
  unfold Phone.create at h ⊢
  split at h
  · simp [Except.isOk, Except.toBool] at h
  · next hc => rw [if_neg hc]

theorem editPhones_not_found (old nw : String) (ps : List Phone)
    (h : ∀ p ∈ ps, p.render ≠ old) : editPhones old nw ps = .error "Phone number not found" := by
  induction ps with
  | nil => rfl
  | cons p ps ih =>
      have hp : (p.render == old) = false := by
        simpa using h p (List.mem_cons_self _ _)
      simp [editPhones, hp, Except.map,
        ih fun q hq => h q (List.mem_cons_of_mem _ hq)]

theorem editPhones_invalid (old nw : String) (ps : List Phone)
    (hmem : ∃ p ∈ ps, p.render = old) (herr : (Phone.create nw).isOk = false) :
    editPhones old nw ps = .error "Invalid phone format" := by
  induction ps with
  | nil => simp at hmem
  | cons p ps ih =>
      by_cases hp : p.render = old
      · simp [editPhones, hp, phone_create_error nw herr, Except.map]
      · have hp' : (p.render == old) = false := by simpa using hp
        have hmem' : ∃ q ∈ ps, q.render = old := by
          rcases hmem with ⟨q, hq, hqe⟩
          rcases List.mem_cons.1 hq with h1 | h1
          · exact absurd (h1 ▸ hqe) hp
          · exact ⟨q, h1, hqe⟩
        simp [editPhones, hp', ih hmem', Except.map]

theorem editPhones_found (old nw : String) (pre : List Phone) (p : Phone) (post : List Phone)
    (hpre : ∀ q ∈ pre, q.render ≠ old) (hp : p.render = old) (pn : Phone)
    (hok : Phone.create nw = .ok pn) :
    editPhones old nw (pre ++ p :: post) = .ok (pre ++ pn :: post) := by
  induction pre with
  | nil =>
      have hp' : (p.render == old) = true := by simpa using hp
      simp [editPhones, hp', hok, Except.map]
  | cons q pre ih =>
      have hq : (q.render == old) = false := by
        simpa using hpre q (List.mem_cons_self _ _)
      simp [editPhones, hq, Except.map,
        ih fun q' hq' => hpre q' (List.mem_cons_of_mem _ hq')]

theorem birthday_create_error (s : String) (h : (Birthday.create s).isOk = false) :
    Birthday.create s = .error "Invalid date format. Use DD.MM.YYYY" := by
  cases heq : parseDMY s with
  | some dt => simp [Birthday.create, heq, Except.isOk, Except.toBool] at h
  | none => simp [Birthday.create, heq]

/-! ## Claim C1: the upcoming-birthday query -/

/-- C1 (amended): for every AddressBook in which no stored birthday falls
on Feb 29 (and a current year below 9999), `get_upcoming_birthdays`
returns (without error) exactly the list the spec describes: records with
a set birthday, re-anchored onto the current year, advanced one year when
strictly before today, included iff the day distance lies in
`[0, window_days]` (both ends inclusive), formatted `YYYY.MM.DD` with the
contact name, in the book's insertion order. -/
theorem upcoming_birthdays_matches_spec (bk : AddressBook) (today : Date) (w : Int)
    (hb : ∀ r ∈ bk.records, ∀ b, r.birthday = some b →
        validDate b.date = true ∧ ¬(b.date.month = 2 ∧ b.date.day = 29))
    (hy1 : 1 ≤ today.year) (hy2 : today.year ≤ 9998) :
    bk.get_upcoming_birthdays today w = .ok (upcomingSpec bk today w) :=
  gubRecords_eq_spec today w hy1 hy2 bk.records hb

/-- A book whose single contact has phone 1234567890 and birthday
Oct 15 1990; used to instantiate C1 at the current date Oct 12 2025. -/
def bookC1 : AddressBook :=
  ⟨[("Alice", ⟨"Alice", [⟨"1234567890"⟩], some ⟨"15.10.1990", ⟨1990, 10, 15⟩⟩⟩)]⟩

/-- Witness for C1: the amended theorem applied at a concrete book and
date (the birthday is 3 days ahead, so the entry is produced). -/
theorem upcoming_birthdays_matches_spec_witness :
    AddressBook.get_upcoming_birthdays bookC1 ⟨2025, 10, 12⟩ 7 =
      .ok (upcomingSpec bookC1 ⟨2025, 10, 12⟩ 7) :=
  upcoming_birthdays_matches_spec bookC1 ⟨2025, 10, 12⟩ 7
    (by
      intro r hr b hbeq
      simp [bookC1, AddressBook.records] at hr
      subst hr
      cases hbeq
      exact ⟨by decide, by decide⟩)
    (by decide) (by decide)

/-- A book whose single contact has birthday Feb 29 2020 (a leap year). -/
def febBookC1 : AddressBook :=
  ⟨[("Bob", ⟨"Bob", [], some ⟨"29.02.2020", ⟨2020, 2, 29⟩⟩⟩)]⟩

/-- Counterexample to C1 as stated (universally over every current
date): with a Feb 29 birthday and the non-leap current year 2025,
`date.replace(year=2025)` raises `ValueError`, so the query errors out
instead of producing the described list. -/
theorem upcoming_birthdays_feb29_cex :
    AddressBook.get_upcoming_birthdays febBookC1 ⟨2025, 1, 15⟩ 7 =
      .error "day is out of range for month"
    ∧ AddressBook.get_upcoming_birthdays febBookC1 ⟨2025, 1, 15⟩ 7 ≠
      .ok (upcomingSpec febBookC1 ⟨2025, 1, 15⟩ 7) := by
  refine ⟨rfl, fun hcontra => ?_⟩
  rw [show AddressBook.get_upcoming_birthdays febBookC1 ⟨2025, 1, 15⟩ 7 =
    .error "day is out of range for month" from rfl] at hcontra
  exact Except.noConfusion hcontra

/-! ## Claim C2: the Feb 29 scenario is fatal (code bug) -/

/-- The book holding just the contact Bob with no birthday yet. -/
def bobBook0 : AddressBook := ⟨[("Bob", Record.create "Bob")]⟩

/-- Bob after `add-birthday Bob 29.02.2020`. -/
def bobBook : AddressBook :=
  ⟨[("Bob", ⟨"Bob", [], some ⟨"29.02.2020", ⟨2020, 2, 29⟩⟩⟩)]⟩

/-- C2 (evidence of the code bug): `add_birthday("Bob","29.02.2020")`
succeeds (2020 is a leap year), but running the birthdays query in the
non-leap year 2025 raises `ValueError` from `date.replace`, which no
handler on the `birthdays` code path catches — the claim (and §7 of the
spec) requires the core to complete without a fatal error under a
deterministic Feb-29 policy. -/
theorem feb29_query_fatal :
    add_birthday ["Bob", "29.02.2020"] bobBook0 = (.displayed "Birthday added.", bobBook)
    ∧ isLeap 2020 = true
    ∧ isLeap 2025 = false
    ∧ AddressBook.get_upcoming_birthdays bobBook ⟨2025, 1, 15⟩ 7 =
        .error "day is out of range for month" :=
  ⟨rfl, rfl, rfl, rfl⟩

/-! ## Claim C3: behaviour on validation errors -/

/-- C3 (amended): a `ValidationError` aborts the operation and a
human-readable message is returned.  For `change` (invalid new phone),
`add-birthday` (invalid birthday) and `add` on an existing name (invalid
nonempty phone) the book is unchanged; only for `add` on a previously
absent name with a nonempty invalid phone is the message returned while
the book keeps a freshly created entry for that name with an empty phone
list (the record is inserted before the phone is validated). -/
theorem validation_error_handling (bk : AddressBook) (name old nw phone bs : String)
    (r : Record) :
    (bk.find name = some r → (∃ p ∈ r.phones, p.render = old) →
        (Phone.create nw).isOk = false →
        change_contact [name, old, nw] bk = (.returned "Invalid phone format", bk))
    ∧ (bk.find name = some r → (Birthday.create bs).isOk = false →
        add_birthday [name, bs] bk =
          (.returned "Invalid date format. Use DD.MM.YYYY", bk))
    ∧ (bk.find name = some r → phone ≠ "" → (Phone.create phone).isOk = false →
        add_contact [name, phone] bk = (.returned "Invalid phone format", bk))
    ∧ (bk.find name = none → phone ≠ "" → (Phone.create phone).isOk = false →
        add_contact [name, phone] bk =
          (.returned "Invalid phone format", bk.add_record (Record.create name))) := by
  refine ⟨?_, ?_, ?_, ?_⟩
  · intro hf hmem hinv
    have he := editPhones_invalid old nw r.phones hmem hinv
    simp [change_contact, change_contact_raw, hf, Record.edit_phone, he,
      Except.map, input_error]
  · intro hf hinv
    have he := birthday_create_error bs hinv
    simp [add_birthday, add_birthday_raw, hf, Record.add_birthday, he,
      Except.map, input_error]
  · intro hf hne hinv
    have he := phone_create_error phone hinv
    simp [add_contact, add_contact_raw, hf, hne, he, input_error]
  · intro hf hne hinv
    have he := phone_create_error phone hinv
    simp [add_contact, add_contact_raw, hf, hne, he, input_error]

/-- A book with one contact Alice holding one valid phone. -/
def bkC3 : AddressBook := ⟨[("Alice", ⟨"Alice", [⟨"1234567890"⟩], none⟩)]⟩

/-- Witness for C3 at concrete inputs (invalid phone "12", invalid
birthday "tomorrow", an `add` for the existing name Alice, and an `add`
for the absent name Carol). -/
theorem validation_error_handling_witness :
    change_contact ["Alice", "1234567890", "12"] bkC3 =
      (.returned "Invalid phone format", bkC3)
    ∧ add_birthday ["Alice", "tomorrow"] bkC3 =
      (.returned "Invalid date format. Use DD.MM.YYYY", bkC3)
    ∧ add_contact ["Alice", "12"] bkC3 = (.returned "Invalid phone format", bkC3)
    ∧ add_contact ["Carol", "12"] bkC3 =
      (.returned "Invalid phone format", bkC3.add_record (Record.create "Carol")) :=
  ⟨(validation_error_handling bkC3 "Alice" "1234567890" "12" "" "" ⟨"Alice", [⟨"1234567890"⟩], none⟩).1
      (by decide) (by decide) (by decide),
   (validation_error_handling bkC3 "Alice" "" "" "" "tomorrow" ⟨"Alice", [⟨"1234567890"⟩], none⟩).2.1
      (by decide) (by decide),
   (validation_error_handling bkC3 "Alice" "" "" "12" "" ⟨"Alice", [⟨"1234567890"⟩], none⟩).2.2.1
      (by decide) (by decide) (by decide),
   (validation_error_handling bkC3 "Carol" "" "" "12" "" ⟨"Alice", [⟨"1234567890"⟩], none⟩).2.2.2
      (by decide) (by decide) (by decide)⟩

/-- Counterexample to C3 as stated: `add Dave 12` on an empty book fails
validation yet leaves the book WITH an entry for Dave (empty phone
list) — the claim requires the book to have no entry for that name. -/
theorem add_invalid_phone_leaves_entry_cex :
    add_contact ["Dave", "12"] (⟨[]⟩ : AddressBook) =
      (.returned "Invalid phone format", ⟨[("Dave", Record.create "Dave")]⟩)
    ∧ AddressBook.find ⟨[("Dave", Record.create "Dave")]⟩ "Dave" =
        some (Record.create "Dave") :=
  ⟨rfl, rfl⟩

/-! ## Claim C4: argument-count errors (code bug) -/

/-- C4 (evidence of the code bug): tuple unpacking of too-short argument
lists raises `ValueError`, not `IndexError`, so `add`, `change`, `phone`
and `show-birthday` surface the raw unpacking message through the same
handler as validation errors instead of the distinct
`"Enter correct information."`; only `add-birthday` (which indexes
`args[0]`/`args[1]` and hence raises `IndexError`) behaves as the claim
requires. -/
theorem argcount_not_distinct :
    change_contact ["Alice"] (⟨[]⟩ : AddressBook) =
      (.returned "not enough values to unpack (expected at least 3, got 1)", ⟨[]⟩)
    ∧ "not enough values to unpack (expected at least 3, got 1)" ≠
        "Enter correct information."
    ∧ add_contact [] (⟨[]⟩ : AddressBook) =
      (.returned "not enough values to unpack (expected at least 2, got 0)", ⟨[]⟩)
    ∧ show_phone [] (⟨[]⟩ : AddressBook) =
      (.returned "not enough values to unpack (expected 1, got 0)", ⟨[]⟩)
    ∧ show_birthday [] (⟨[]⟩ : AddressBook) =
      (.returned "not enough values to unpack (expected 1, got 0)", ⟨[]⟩)
    ∧ add_birthday ["Bob"] (⟨[]⟩ : AddressBook) =
      (.returned "Enter correct information.", ⟨[]⟩) :=
  ⟨rfl, by decide, rfl, rfl, rfl, rfl⟩

/-! ## Claim C5: lookups of a missing contact (code bug) -/

/-- C5 (evidence of the code bug): `show_phone` on a missing name raises
`KeyError` and is surfaced as the required message, but `show_birthday`
dereferences the `None` returned by `find` and raises `AttributeError`,
which `input_error` does not catch — the process dies instead of
returning "Name not found. Please, check and try again.". -/
theorem show_birthday_missing_name_fatal :
    show_phone ["Eve"] (⟨[]⟩ : AddressBook) =
      (.returned "Name not found. Please, check and try again.", ⟨[]⟩)
    ∧ show_birthday ["Eve"] (⟨[]⟩ : AddressBook) =
      (.fatal "NoneType object has no attribute birthday", ⟨[]⟩) :=
  ⟨rfl, rfl⟩

/-! ## Claim C6: edit_phone -/

/-- C6 (amended): `edit_phone(old, new)` fails with
`"Phone number not found"` when no phone renders equal to `old`; when a
first match exists it fails with `"Invalid phone format"` (record
unchanged) on invalid `new`, and on valid `new` replaces exactly that
first match, preserving order, so that `new` matches a phone afterwards;
`old` no longer matches any phone provided the match was unique and
`new ≠ old` (with duplicates, later occurrences of `old` survive). -/
theorem edit_phone_spec (r : Record) (old nw : String) :
    ((∀ p ∈ r.phones, p.render ≠ old) →
        r.edit_phone old nw = .error "Phone number not found")
    ∧ (∀ pre p post, r.phones = pre ++ p :: post → (∀ q ∈ pre, q.render ≠ old) →
        p.render = old →
        (((Phone.create nw).isOk = false →
            r.edit_phone old nw = .error "Invalid phone format")
          ∧ (∀ pn, Phone.create nw = .ok pn →
              r.edit_phone old nw = .ok { r with phones := pre ++ pn :: post }
              ∧ pn.render = nw
              ∧ nw ∈ (pre ++ pn :: post).map Phone.render
              ∧ (old ∉ post.map Phone.render → nw ≠ old →
                  old ∉ (pre ++ pn :: post).map Phone.render)))) := by
  constructor
  · intro h
    simp [Record.edit_phone, editPhones_not_found old nw r.phones h, Except.map]
  · intro pre p post hsplit hpre hp
    constructor
    · intro hinv
      have hmem : ∃ q ∈ r.phones, q.render = old := ⟨p, by rw [hsplit]; simp, hp⟩
      simp [Record.edit_phone, editPhones_invalid old nw r.phones hmem hinv, Except.map]
    · intro pn hok
      have hpn : pn = ⟨nw⟩ := phone_create_ok nw pn hok
      have hfound := editPhones_found old nw pre p post hpre hp pn hok
      refine ⟨?_, ?_, ?_, ?_⟩
      · simp [Record.edit_phone, hsplit, hfound, Except.map]
      · rw [hpn]; rfl
      · rw [hpn]
        simp [Phone.render]
      · intro hpost hne hmem2
        simp only [List.map_append, List.map_cons, List.mem_append, List.mem_cons] at hmem2
        rcases hmem2 with hmem2 | hmem2 | hmem2
        · rcases List.mem_map.1 hmem2 with ⟨q, hq, hqe⟩
          exact hpre q hq hqe
        · rw [hpn] at hmem2
          simp [Phone.render] at hmem2
          exact hne hmem2.symm
        · exact hpost hmem2

/-- Witness for C6: replacing the unique second phone succeeds and yields
the order-preserved list. -/
theorem edit_phone_spec_witness :
    (Record.mk "Ann" [⟨"1111111111"⟩, ⟨"2222222222"⟩] none).edit_phone
        "2222222222" "3333333333" =
      .ok (Record.mk "Ann" [⟨"1111111111"⟩, ⟨"3333333333"⟩] none) :=
  (((edit_phone_spec (Record.mk "Ann" [⟨"1111111111"⟩, ⟨"2222222222"⟩] none)
        "2222222222" "3333333333").2
      [⟨"1111111111"⟩] ⟨"2222222222"⟩ [] rfl (by decide) rfl).2
    ⟨"3333333333"⟩ rfl).1

/-- Counterexample to C6 as stated: with two phones both rendering
`old`, a successful edit replaces only the first, so `old` still matches
a phone of the record afterwards. -/
theorem edit_phone_duplicate_cex :
    (Record.mk "Ann" [⟨"1234567890"⟩, ⟨"1234567890"⟩] none).edit_phone
        "1234567890" "0987654321" =
      .ok (Record.mk "Ann" [⟨"0987654321"⟩, ⟨"1234567890"⟩] none)
    ∧ "1234567890" ∈
        ([⟨"0987654321"⟩, ⟨"1234567890"⟩] : List Phone).map Phone.render :=
  ⟨rfl, by decide⟩

/-! ## Claim C7: phone validation -/

/-- C7: `Phone` construction fails exactly when the string does not have
length 10 or some character is not a decimal digit; on every 10-digit
string it succeeds and renders back the identical string. -/
theorem phone_validation (s : String) :
    ((Phone.create s).isOk = false ↔ ¬(s.length = 10 ∧ ∀ c ∈ s.data, c.isDigit = true))
    ∧ (s.length = 10 → (∀ c ∈ s.data, c.isDigit = true) →
        Phone.create s = .ok ⟨s⟩ ∧ Phone.render ⟨s⟩ = s) := by
  have hlen : s.length = s.data.length := rfl
  by_cases hc : (s.data.length == 10 && s.data.all Char.isDigit) = true
  · have hprop : s.data.length = 10 ∧ ∀ c ∈ s.data, c.isDigit = true := by
      simpa [List.all_eq_true] using hc
    have hok : Phone.create s = .ok ⟨s⟩ := by
      unfold Phone.create
      rw [if_pos hc]
    refine ⟨iff_of_false ?_ (not_not_intro ⟨hlen.trans hprop.1, hprop.2⟩),
      fun _ _ => ⟨hok, rfl⟩⟩
    rw [hok]
    exact fun h => Bool.noConfusion h
  · have hprop : ¬(s.data.length = 10 ∧ ∀ c ∈ s.data, c.isDigit = true) := by
      simpa [List.all_eq_true] using hc
    have herr : Phone.create s = .error "Invalid phone format" := by
      unfold Phone.create
      rw [if_neg hc]
    have hisl : (Phone.create s).isOk = false := by rw [herr]; rfl
    exact ⟨iff_of_true hisl fun hand => hprop ⟨hlen.symm.trans hand.1, hand.2⟩,
      fun h1 h2 => absurd ⟨hlen.symm.trans h1, h2⟩ hprop⟩

/-- Witness for C7 at the 10-digit string 1234567890. -/
theorem phone_validation_witness :
    Phone.create "1234567890" = .ok ⟨"1234567890"⟩
    ∧ Phone.render ⟨"1234567890"⟩ = "1234567890" :=
  (phone_validation "1234567890").2 (by decide) (by decide)

/-! ## Claim C8: add_record/find and the key invariant -/

/-- C8: after `add_record(r)`, `find(r.name)` returns exactly `r` (whose
name is `r.name`); the key `r.name` occurs exactly once (re-adding
overwrites in place, never duplicates); and both `add_record` and
`delete` preserve the invariant that every key equals its record's name
with no duplicate keys. -/
theorem add_record_find_inv (bk : AddressBook) (r : Record) (h : bk.inv) :
    (bk.add_record r).find r.name = some r
    ∧ ((bk.add_record r).data.map Prod.fst).count r.name = 1
    ∧ (bk.add_record r).inv
    ∧ (∀ n, (bk.delete n).inv) :=
  ⟨lookupKey_setKey_self bk.data r.name r,
   count_keys_setKey bk.data r.name r h.2,
   inv_add_record bk r h,
   fun n => inv_delete bk n h⟩

/-- Witness for C8 on the empty book and the fresh record Alice. -/
theorem add_record_find_inv_witness :
    ((⟨[]⟩ : AddressBook).add_record (Record.create "Alice")).find "Alice" =
      some (Record.create "Alice")
    ∧ ((⟨[]⟩ : AddressBook).add_record (Record.create "Alice")).inv :=
  ⟨(add_record_find_inv ⟨[]⟩ (Record.create "Alice") (by decide)).1,
   (add_record_find_inv ⟨[]⟩ (Record.create "Alice") (by decide)).2.2.1⟩

/-! ## Claim C9: the add command with an empty phone string -/

/-- C9: `add name ""` never validates the empty string as a phone: a
previously absent contact is created with an empty phone list and
"Contact added." is displayed; for an existing contact nothing is
appended, the book is unchanged and "Contact updated." is displayed. -/
theorem add_contact_empty_phone (bk : AddressBook) (name : String) (r : Record) :
    (bk.find name = none →
        add_contact [name, ""] bk =
          (.displayed "Contact added.", bk.add_record (Record.create name))
        ∧ (bk.add_record (Record.create name)).find name = some (Record.create name)
        ∧ (Record.create name).phones = [])
    ∧ (bk.find name = some r →
        add_contact [name, ""] bk = (.displayed "Contact updated.", bk)) := by
  constructor
  · intro hf
    refine ⟨?_, lookupKey_setKey_self bk.data name (Record.create name), rfl⟩
    simp [add_contact, add_contact_raw, hf, input_error]
  · intro hf
    simp [add_contact, add_contact_raw, hf, input_error]

/-- A book holding just the contact Bob (no phones, no birthday). -/
def bkC9 : AddressBook := ⟨[("Bob", Record.create "Bob")]⟩

/-- Witness for C9: an absent name Carol and the present name Bob. -/
theorem add_contact_empty_phone_witness :
    add_contact ["Carol", ""] bkC9 =
      (.displayed "Contact added.", bkC9.add_record (Record.create "Carol"))
    ∧ add_contact ["Bob", ""] bkC9 = (.displayed "Contact updated.", bkC9) :=
  ⟨((add_contact_empty_phone bkC9 "Carol" (Record.create "Bob")).1 (by decide)).1,
   (add_contact_empty_phone bkC9 "Bob" (Record.create "Bob")).2 (by decide)⟩

/-! ## Claim C10: show-birthday on a contact without a birthday -/

/-- C10: `show-birthday` on an existing contact whose birthday is unset
displays the literal string "None" (Python's `str(None)`) and signals no
error. -/
theorem show_birthday_unset_none (bk : AddressBook) (name : String) (r : Record)
    (hf : bk.find name = some r) (hb : r.birthday = none) :
    show_birthday [name] bk = (.displayed "None", bk) := by
  simp [show_birthday, show_birthday_raw, hf, input_error, birthdayStr, hb]

/-- Witness for C10 on the contact Bob with no birthday. -/
theorem show_birthday_unset_none_witness :
    show_birthday ["Bob"] bkC9 = (.displayed "None", bkC9) :=
  show_birthday_unset_none bkC9 "Bob" (Record.create "Bob") (by decide) rfl

end HW1
